import Mathlib

/-
Verification of the clipcat client adapter (crates/client/src/manager.rs):
a shallow embedding of the Manager trait and its implementation for
`Client`, together with theorems about the client-observable behaviour of
each operation.

Each Manager operation of the adapter builds one request value, issues it
on the channel, awaits the single response, and maps it to a success value
or a typed error.  We embed an operation as an `RpcCall`: the request it
sends, paired with the pure function that maps the channel's outcome
(transport failure or wire response) to the operation's result.
-/

/-- Transport-level failure object (`tonic::Status`), carried opaquely by
the per-operation `Status` errors; the adapter never inspects it. -/
structure TStatus where
  code : Nat
  message : String
deriving DecidableEq, Repr

/-- ClipboardMode from the `clipcat` crate: the closed two-value
enumeration of addressable clipboard buffers. -/
inductive ClipboardMode where
  | Selection
  | Clipboard
deriving DecidableEq, Repr

/-- Modelled from the spec: `ClipboardMode` on the wire is "a small closed
integer/enum code, two values only" (the protobuf enum of the
`clipcat-proto` crate, which is outside `src/`). -/
def ClipboardMode.toWire : ClipboardMode → Nat
  | .Selection => 0
  | .Clipboard => 1

/-- Media type value of the external `mime` crate: a type/subtype pair
plus optional parameters. -/
structure Mime where
  type_ : String
  subtype : String
  params : List (String × String)
deriving DecidableEq, Repr

/-- Canonical string form of a media type (`mime::Mime::essence_str`):
the `type/subtype` essence, without parameters. -/
def Mime.essence_str (m : Mime) : String :=
  m.type_ ++ "/" ++ m.subtype

/-- Modelled from the spec: `ClipEntry` on the wire is
`{id: u64, data: bytes, mime: string, plus an opaque ordering key}`
(the protobuf message of the `clipcat-proto` crate, outside `src/`). -/
structure ProtoClipEntry where
  id : Nat
  data : List Nat
  mime : String
  key : Nat
deriving DecidableEq, Repr

/-- ClipEntry from the `clipcat` crate: immutable snapshot of one stored
clipboard item, carrying the daemon's opaque ordering key. -/
structure ClipEntry where
  id : Nat
  data : List Nat
  mime : String
  key : Nat
deriving DecidableEq, Repr

/-- Modelled from the spec: the `From<proto::ClipEntry>` conversion of the
`clipcat` crate (outside `src/`), a field-for-field translation of the
wire entry into the client value. -/
def ClipEntry.fromProto (p : ProtoClipEntry) : ClipEntry :=
  ⟨p.id, p.data, p.mime, p.key⟩

/-- Modelled from the spec: `ClipEntry` "supports a total order (used only
for presenting history) whose exact key ... must be treated as an opaque
but stable comparison" — the `Ord` instance of the `clipcat` crate
(outside `src/`).  We model it as comparison on the opaque ordering key,
ties broken by id. -/
def ClipEntry.leb (a b : ClipEntry) : Bool :=
  decide (a.key < b.key) || (decide (a.key = b.key) && decide (a.id ≤ b.id))

/- Wire request/response messages of §6, one pair per operation. -/

structure GetRequest where
  id : Nat
deriving DecidableEq, Repr

structure GetResponse where
  data : Option ProtoClipEntry
deriving DecidableEq, Repr

structure GetCurrentClipRequest where
  mode : Nat
deriving DecidableEq, Repr

structure GetCurrentClipResponse where
  data : Option ProtoClipEntry
deriving DecidableEq, Repr

structure UpdateRequest where
  id : Nat
  data : List Nat
  mime : String
deriving DecidableEq, Repr

structure UpdateResponse where
  ok : Bool
  new_id : Nat
deriving DecidableEq, Repr

structure MarkRequest where
  id : Nat
  mode : Nat
deriving DecidableEq, Repr

structure MarkResponse where
  ok : Bool
deriving DecidableEq, Repr

structure InsertRequest where
  mode : Nat
  data : List Nat
  mime : String
deriving DecidableEq, Repr

structure InsertResponse where
  id : Nat
deriving DecidableEq, Repr

structure LengthRequest where
deriving DecidableEq, Repr

/-- Modelled from the spec: `LengthResponse{length: integer}` — the count
field is a wire integer that may be negative or exceed the client's size
type, hence `Int`. -/
structure LengthResponse where
  length : Int
deriving DecidableEq, Repr

structure ListRequest where
deriving DecidableEq, Repr

structure ListResponse where
  data : List ProtoClipEntry
deriving DecidableEq, Repr

structure RemoveRequest where
  id : Nat
deriving DecidableEq, Repr

structure RemoveResponse where
  ok : Bool
deriving DecidableEq, Repr

structure BatchRemoveRequest where
  ids : List Nat
deriving DecidableEq, Repr

structure BatchRemoveResponse where
  ids : List Nat
deriving DecidableEq, Repr

structure ClearRequest where
deriving DecidableEq, Repr

structure ClearResponse where
deriving DecidableEq, Repr

/- Per-operation error kinds (crate::error).  The enum definitions live in
crates/client/src/error.rs, outside `src/`; the variants and the fields
they carry are exactly those constructed at the use sites in manager.rs. -/

inductive GetClipError where
  | Status (source : TStatus) (id : Nat)
  | Empty
deriving DecidableEq, Repr

inductive GetCurrentClipError where
  | Status (source : TStatus) (mode : ClipboardMode)
  | Empty
deriving DecidableEq, Repr

inductive UpdateClipError where
  | Status (source : TStatus)
deriving DecidableEq, Repr

inductive MarkClipError where
  | Status (source : TStatus) (id : Nat) (mode : ClipboardMode)
deriving DecidableEq, Repr

inductive InsertClipError where
  | Status (source : TStatus)
deriving DecidableEq, Repr

inductive GetLengthError where
  | Status (source : TStatus)
deriving DecidableEq, Repr

inductive ListClipError where
  | Status (source : TStatus)
deriving DecidableEq, Repr

inductive RemoveClipError where
  | Status (source : TStatus)
deriving DecidableEq, Repr

inductive BatchRemoveClipError where
  | Status (source : TStatus)
deriving DecidableEq, Repr

inductive ClearClipError where
  | Status (source : TStatus)
deriving DecidableEq, Repr

/-- One remote procedure call of the adapter: the request value it sends
on the channel, and the pure handler mapping the channel's outcome (a
transport failure `TStatus`, or the wire response) to the operation's
result.  Exactly one request is sent and exactly one response awaited. -/
structure RpcCall (Req Resp Err Ok : Type) where
  request : Req
  handle : Except TStatus Resp → Except Err Ok

/-- Maximum value of the client's non-negative size type (`usize` on a
64-bit platform). -/
def usizeMax : Int := 2 ^ 64 - 1

namespace Client

/-- `<Client as Manager>::get` (manager.rs lines 62 to 70). -/
def get (id : Nat) : RpcCall GetRequest GetResponse GetClipError ClipEntry :=
  RpcCall.mk ⟨id⟩ fun r =>
    match r with
    | .error source => .error (.Status source id)
    | .ok resp =>
      match resp.data with
      | none => .error .Empty
      | some data => .ok (ClipEntry.fromProto data)

/-- `<Client as Manager>::get_current_clip` (manager.rs lines 72 to 83). -/
def get_current_clip (mode : ClipboardMode) :
    RpcCall GetCurrentClipRequest GetCurrentClipResponse GetCurrentClipError ClipEntry :=
  RpcCall.mk ⟨mode.toWire⟩ fun r =>
    match r with
    | .error source => .error (.Status source mode)
    | .ok resp =>
      match resp.data with
      | none => .error .Empty
      | some data => .ok (ClipEntry.fromProto data)

/-- `<Client as Manager>::update` (manager.rs lines 85 to 101). -/
def update (id : Nat) (data : List Nat) (mime : Mime) :
    RpcCall UpdateRequest UpdateResponse UpdateClipError (Bool × Nat) :=
  RpcCall.mk ⟨id, data, mime.essence_str⟩ fun r =>
    match r with
    | .error source => .error (.Status source)
    | .ok resp => .ok (resp.ok, resp.new_id)

/-- `<Client as Manager>::mark` (manager.rs lines 103 to 110). -/
def mark (id : Nat) (mode : ClipboardMode) :
    RpcCall MarkRequest MarkResponse MarkClipError Bool :=
  RpcCall.mk ⟨id, mode.toWire⟩ fun r =>
    match r with
    | .error source => .error (.Status source id mode)
    | .ok resp => .ok resp.ok

/-- `<Client as Manager>::insert` (manager.rs lines 112 to 128). -/
def insert (data : List Nat) (mime : Mime) (clipboard_mode : ClipboardMode) :
    RpcCall InsertRequest InsertResponse InsertClipError Nat :=
  RpcCall.mk ⟨clipboard_mode.toWire, data, mime.essence_str⟩ fun r =>
    match r with
    | .error source => .error (.Status source)
    | .ok resp => .ok resp.id

/-- `Manager::insert_clipboard` default method (manager.rs lines 37 to 43):
delegates to `insert` with mode `Clipboard`. -/
def insert_clipboard (data : List Nat) (mime : Mime) :
    RpcCall InsertRequest InsertResponse InsertClipError Nat :=
  insert data mime ClipboardMode.Clipboard

/-- `Manager::insert_primary` default method (manager.rs lines 45 to 47):
delegates to `insert` with mode `Selection`. -/
def insert_primary (data : List Nat) (mime : Mime) :
    RpcCall InsertRequest InsertResponse InsertClipError Nat :=
  insert data mime ClipboardMode.Selection

/-- `<Client as Manager>::length` (manager.rs lines 130 to 137):
`usize::try_from(length).unwrap_or(0)` — the conversion succeeds exactly
when the wire count is within `usize` range, and degrades to 0 otherwise. -/
def length : RpcCall LengthRequest LengthResponse GetLengthError Nat :=
  RpcCall.mk ⟨⟩ fun r =>
    match r with
    | .error source => .error (.Status source)
    | .ok resp =>
      .ok (if 0 ≤ resp.length ∧ resp.length ≤ usizeMax then resp.length.toNat else 0)

/-- `<Client as Manager>::list` (manager.rs lines 139 to 151): converts
each wire entry and re-sorts client-side (`sort_unstable`, modelled as a
sort by `ClipEntry`'s comparison). -/
def list : RpcCall ListRequest ListResponse ListClipError (List ClipEntry) :=
  RpcCall.mk ⟨⟩ fun r =>
    match r with
    | .error source => .error (.Status source)
    | .ok resp => .ok ((resp.data.map ClipEntry.fromProto).mergeSort ClipEntry.leb)

/-- `<Client as Manager>::remove` (manager.rs lines 153 to 160). -/
def remove (id : Nat) : RpcCall RemoveRequest RemoveResponse RemoveClipError Bool :=
  RpcCall.mk ⟨id⟩ fun r =>
    match r with
    | .error source => .error (.Status source)
    | .ok resp => .ok resp.ok

/-- `<Client as Manager>::batch_remove` (manager.rs lines 162 to 169):
sends the ids by value and returns the response's id sequence as is. -/
def batch_remove (ids : List Nat) :
    RpcCall BatchRemoveRequest BatchRemoveResponse BatchRemoveClipError (List Nat) :=
  RpcCall.mk ⟨ids⟩ fun r =>
    match r with
    | .error source => .error (.Status source)
    | .ok resp => .ok resp.ids

/-- `<Client as Manager>::clear` (manager.rs lines 171 to 177). -/
def clear : RpcCall ClearRequest ClearResponse ClearClipError Unit :=
  RpcCall.mk ⟨⟩ fun r =>
    match r with
    | .error source => .error (.Status source)
    | .ok _ => .ok ()

end Client

/-- Modelled from the spec: the daemon-side storage engine (outside
`src/`) "is assumed to already implement the contract correctly": on
`batch_remove(ids)` it removes exactly the requested ids that are present
in the history and answers with "a subsequence of `ids` containing exactly
those that were present immediately before the call". -/
def daemonBatchRemove (history : List Nat) (ids : List Nat) :
    BatchRemoveResponse × List Nat :=
  (⟨ids.filter fun i => decide (i ∈ history)⟩,
   history.filter fun i => decide (i ∉ ids))

/-- Client `batch_remove` composed with the spec-modelled daemon: the
result the caller sees when the daemon holds `history`. -/
def batchRemoveAgainstDaemon (history ids : List Nat) :
    Except BatchRemoveClipError (List Nat) :=
  (Client.batch_remove ids).handle (.ok (daemonBatchRemove history ids).1)

/- Helper lemmas about the modelled ClipEntry comparison. -/

/-- The modelled ClipEntry comparison is transitive. -/
theorem ClipEntry.leb_trans (a b c : ClipEntry)
    (hab : ClipEntry.leb a b = true) (hbc : ClipEntry.leb b c = true) :
    ClipEntry.leb a c = true := by
  simp only [ClipEntry.leb, Bool.or_eq_true, Bool.and_eq_true,
    decide_eq_true_eq] at hab hbc ⊢
  omega

/-- The modelled ClipEntry comparison is total. -/
theorem ClipEntry.leb_total (a b : ClipEntry) :
    (ClipEntry.leb a b || ClipEntry.leb b a) = true := by
  simp only [ClipEntry.leb, Bool.or_eq_true, Bool.and_eq_true,
    decide_eq_true_eq]
  omega

/-- C1: `insert_clipboard(data, mime)` is exactly `insert(data, mime,
Clipboard)` and `insert_primary(data, mime)` exactly
`insert(data, mime, Selection)`: same request sent, same handling of the
channel outcome, hence the same single remote insert call and no wire
behaviour of their own. -/
theorem insert_derived_ops_delegate (data : List Nat) (mime : Mime) :
    Client.insert_clipboard data mime = Client.insert data mime ClipboardMode.Clipboard ∧
    Client.insert_primary data mime = Client.insert data mime ClipboardMode.Selection :=
  ⟨rfl, rfl⟩

/-- C2: `get(id)` yields the `Empty` error exactly when the remote call
succeeds with an absent optional data field, the contained entry when the
field is present, and a `Status` error carrying the transport failure and
the requested id exactly when the call fails; the three outcomes differ by
kind alone. -/
theorem get_error_taxonomy (id : Nat) (s : TStatus) (d : ProtoClipEntry) :
    (Client.get id).handle (.error s) = .error (GetClipError.Status s id) ∧
    (Client.get id).handle (.ok ⟨none⟩) = .error GetClipError.Empty ∧
    (Client.get id).handle (.ok ⟨some d⟩) = .ok (ClipEntry.fromProto d) ∧
    GetClipError.Status s id ≠ GetClipError.Empty :=
  ⟨rfl, rfl, rfl, fun h => GetClipError.noConfusion h⟩

/-- C2 witness: the three outcomes of `get` at concrete inputs. -/
theorem get_error_taxonomy_witness :
    (Client.get 7).handle (.error ⟨1, "boom"⟩)
      = .error (GetClipError.Status ⟨1, "boom"⟩ 7) ∧
    (Client.get 7).handle (.ok ⟨none⟩) = .error GetClipError.Empty ∧
    (Client.get 7).handle (.ok ⟨some ⟨7, [104], "text/plain", 3⟩⟩)
      = .ok (ClipEntry.fromProto ⟨7, [104], "text/plain", 3⟩) ∧
    GetClipError.Status ⟨1, "boom"⟩ 7 ≠ GetClipError.Empty :=
  get_error_taxonomy 7 ⟨1, "boom"⟩ ⟨7, [104], "text/plain", 3⟩

/-- C3: `get_current_clip(mode)` yields the `Empty` error (not a `Status`
error) exactly when the remote call succeeds with no entry for the buffer,
and on transport failure a `Status` error carrying the failure and the
requested mode. -/
theorem get_current_clip_error_taxonomy (mode : ClipboardMode) (s : TStatus)
    (d : ProtoClipEntry) :
    (Client.get_current_clip mode).handle (.error s)
      = .error (GetCurrentClipError.Status s mode) ∧
    (Client.get_current_clip mode).handle (.ok ⟨none⟩)
      = .error GetCurrentClipError.Empty ∧
    (Client.get_current_clip mode).handle (.ok ⟨some d⟩)
      = .ok (ClipEntry.fromProto d) ∧
    GetCurrentClipError.Status s mode ≠ GetCurrentClipError.Empty :=
  ⟨rfl, rfl, rfl, fun h => GetCurrentClipError.noConfusion h⟩

/-- C3 witness: the three outcomes of `get_current_clip` at concrete
inputs. -/
theorem get_current_clip_error_taxonomy_witness :
    (Client.get_current_clip ClipboardMode.Selection).handle (.error ⟨1, "boom"⟩)
      = .error (GetCurrentClipError.Status ⟨1, "boom"⟩ ClipboardMode.Selection) ∧
    (Client.get_current_clip ClipboardMode.Selection).handle (.ok ⟨none⟩)
      = .error GetCurrentClipError.Empty ∧
    (Client.get_current_clip ClipboardMode.Selection).handle
        (.ok ⟨some ⟨7, [104], "text/plain", 3⟩⟩)
      = .ok (ClipEntry.fromProto ⟨7, [104], "text/plain", 3⟩) ∧
    GetCurrentClipError.Status ⟨1, "boom"⟩ ClipboardMode.Selection
      ≠ GetCurrentClipError.Empty :=
  get_current_clip_error_taxonomy ClipboardMode.Selection ⟨1, "boom"⟩
    ⟨7, [104], "text/plain", 3⟩

/-- C4: `length()` never errors on a malformed count: a negative count or
one above the size-type range is coerced to 0, an in-range count is
returned exactly, and a `Status` error arises only from a transport
failure. -/
theorem length_malformed_count_to_zero (s : TStatus) (n : Int) :
    Client.length.handle (.error s) = .error (GetLengthError.Status s) ∧
    (n < 0 ∨ usizeMax < n → Client.length.handle (.ok ⟨n⟩) = .ok 0) ∧
    (0 ≤ n → n ≤ usizeMax → Client.length.handle (.ok ⟨n⟩) = .ok n.toNat) := by
  refine ⟨rfl, fun h => ?_, fun h1 h2 => ?_⟩
  · show Except.ok (if 0 ≤ n ∧ n ≤ usizeMax then n.toNat else 0)
      = Except.ok 0
    rw [if_neg fun hc =>
      h.elim (fun hl => absurd hc.1 (not_le.mpr hl))
        (fun hr => absurd hc.2 (not_le.mpr hr))]
  · show Except.ok (if 0 ≤ n ∧ n ≤ usizeMax then n.toNat else 0)
      = Except.ok n.toNat
    rw [if_pos ⟨h1, h2⟩]

/-- C4 witness: a negative count degrades to 0 and an in-range count is
returned exactly. -/
theorem length_malformed_count_to_zero_witness :
    Client.length.handle (.ok ⟨-5⟩) = .ok 0 ∧
    Client.length.handle (.ok ⟨42⟩) = .ok 42 :=
  ⟨(length_malformed_count_to_zero ⟨1, "boom"⟩ (-5)).2.1 (Or.inl (by decide)),
   (length_malformed_count_to_zero ⟨1, "boom"⟩ 42).2.2 (by decide)
     (by decide)⟩

/-- C5: a successful `list()` is sorted in non-decreasing order under the
ClipEntry comparison, the client re-sorting the received entries after
receipt: for every wire response the result is a sorted permutation of the
converted entries. -/
theorem list_resorted_client_side (s : TStatus) (resp : ListResponse) :
    Client.list.handle (.error s) = .error (ListClipError.Status s) ∧
    ∃ l, Client.list.handle (.ok resp) = .ok l ∧
      List.Pairwise (fun a b => ClipEntry.leb a b = true) l ∧
      List.Perm l (resp.data.map ClipEntry.fromProto) := by
  refine ⟨rfl, (resp.data.map ClipEntry.fromProto).mergeSort ClipEntry.leb,
    rfl, ?_, ?_⟩
  · exact List.sorted_mergeSort
      (fun a b c => ClipEntry.leb_trans a b c)
      (fun a b => ClipEntry.leb_total a b) _
  · exact List.mergeSort_perm _ _

/-- C6 counterexample: `update`'s request includes the id, yet the
`Status` error produced on a transport failure is identical for two
different requested ids — the error cannot carry the id that was part of
the request, so the claim fails for `update`. -/
theorem update_status_drops_id_counterexample :
    (Client.update 0 [104] ⟨"text", "plain", []⟩).handle (.error ⟨1, "boom"⟩)
      = (Client.update 9 [104] ⟨"text", "plain", []⟩).handle (.error ⟨1, "boom"⟩) ∧
    (Client.update 0 [104] ⟨"text", "plain", []⟩).request
      ≠ (Client.update 9 [104] ⟨"text", "plain", []⟩).request :=
  ⟨rfl, fun h => absurd (congrArg UpdateRequest.id h) (by decide)⟩

/-- C6 amended: on transport failure, `get`'s `Status` error carries the
requested id, `get_current_clip`'s the requested mode, and `mark`'s both
the id and the mode; `update`'s `Status` error carries only the underlying
transport failure and is independent of the requested id. -/
theorem status_errors_carry_request_params (id : Nat) (mode : ClipboardMode)
    (data : List Nat) (m : Mime) (s : TStatus) :
    (Client.get id).handle (.error s) = .error (GetClipError.Status s id) ∧
    (Client.get_current_clip mode).handle (.error s)
      = .error (GetCurrentClipError.Status s mode) ∧
    (Client.mark id mode).handle (.error s)
      = .error (MarkClipError.Status s id mode) ∧
    (Client.update id data m).handle (.error s)
      = .error (UpdateClipError.Status s) ∧
    ∀ id2, (Client.update id data m).handle (.error s)
      = (Client.update id2 data m).handle (.error s) :=
  ⟨rfl, rfl, rfl, rfl, fun _ => rfl⟩

/-- C7: against a daemon behaving as specified, a successful
`batch_remove(ids)` returns a subsequence of `ids` containing exactly the
ids present in the history immediately before the call; an id absent
beforehand never appears in the result. -/
theorem batch_remove_subsequence (history ids : List Nat) :
    ∃ removed, batchRemoveAgainstDaemon history ids = .ok removed ∧
      List.Sublist removed ids ∧
      ∀ i, i ∈ removed ↔ (i ∈ ids ∧ i ∈ history) := by
  refine ⟨ids.filter fun i => decide (i ∈ history), rfl,
    List.filter_sublist _, fun i => ?_⟩
  simp [List.mem_filter]

/-- C7 witness: the composed call at a concrete history and id sequence. -/
theorem batch_remove_subsequence_witness :
    ∃ removed, batchRemoveAgainstDaemon [1, 2, 3] [2, 5] = .ok removed ∧
      List.Sublist removed [2, 5] ∧
      ∀ i, i ∈ removed ↔ (i ∈ [2, 5] ∧ i ∈ [1, 2, 3]) :=
  batch_remove_subsequence [1, 2, 3] [2, 5]

/-- C8: the requests built by `insert` and `update` carry the
ClipboardMode converted to its wire code (insert only), the media type
serialized to its canonical essence string, and the payload bytes by
value, unchanged. -/
theorem requests_carry_serialized_fields (id : Nat) (data : List Nat)
    (m : Mime) (mode : ClipboardMode) :
    (Client.insert data m mode).request
      = InsertRequest.mk mode.toWire data m.essence_str ∧
    (Client.update id data m).request
      = UpdateRequest.mk id data m.essence_str :=
  ⟨rfl, rfl⟩

/-- C9: `batch_remove` performs no client-side validation or filtering of
the daemon's reply: for every wire response, the id sequence handed to the
caller is exactly the response's id sequence, in order — even one holding
ids that were not in the request. -/
theorem batch_remove_pass_through (ids : List Nat) (resp : BatchRemoveResponse) :
    (Client.batch_remove ids).handle (.ok resp) = .ok resp.ids ∧
    (Client.batch_remove ids).request = BatchRemoveRequest.mk ids :=
  ⟨rfl, rfl⟩

/-- C10: every Manager operation of the Client adapter is deterministic in
its inputs and the channel's outcome: equal request parameters and an
equal channel outcome (response or transport failure) give an equal
result. -/
theorem client_ops_deterministic (id : Nat) (mode : ClipboardMode)
    (data : List Nat) (m : Mime) (ids : List Nat) :
    (∀ r r' : Except TStatus GetResponse, r = r' →
      (Client.get id).handle r = (Client.get id).handle r') ∧
    (∀ r r' : Except TStatus GetCurrentClipResponse, r = r' →
      (Client.get_current_clip mode).handle r
        = (Client.get_current_clip mode).handle r') ∧
    (∀ r r' : Except TStatus UpdateResponse, r = r' →
      (Client.update id data m).handle r = (Client.update id data m).handle r') ∧
    (∀ r r' : Except TStatus MarkResponse, r = r' →
      (Client.mark id mode).handle r = (Client.mark id mode).handle r') ∧
    (∀ r r' : Except TStatus InsertResponse, r = r' →
      (Client.insert data m mode).handle r
        = (Client.insert data m mode).handle r') ∧
    (∀ r r' : Except TStatus LengthResponse, r = r' →
      Client.length.handle r = Client.length.handle r') ∧
    (∀ r r' : Except TStatus ListResponse, r = r' →
      Client.list.handle r = Client.list.handle r') ∧
    (∀ r r' : Except TStatus RemoveResponse, r = r' →
      (Client.remove id).handle r = (Client.remove id).handle r') ∧
    (∀ r r' : Except TStatus BatchRemoveResponse, r = r' →
      (Client.batch_remove ids).handle r = (Client.batch_remove ids).handle r') ∧
    (∀ r r' : Except TStatus ClearResponse, r = r' →
      Client.clear.handle r = Client.clear.handle r') :=
  ⟨fun _ _ h => by rw [h], fun _ _ h => by rw [h], fun _ _ h => by rw [h],
   fun _ _ h => by rw [h], fun _ _ h => by rw [h], fun _ _ h => by rw [h],
   fun _ _ h => by rw [h], fun _ _ h => by rw [h], fun _ _ h => by rw [h],
   fun _ _ h => by rw [h]⟩

/-- C10 witness: determinism instantiated at concrete inputs and channel
outcomes. -/
theorem client_ops_deterministic_witness :
    (Client.get 7).handle (.ok ⟨none⟩) = (Client.get 7).handle (.ok ⟨none⟩) ∧
    Client.clear.handle (.error ⟨1, "boom"⟩)
      = Client.clear.handle (.error ⟨1, "boom"⟩) :=
  ⟨(client_ops_deterministic 7 ClipboardMode.Clipboard [104]
      ⟨"text", "plain", []⟩ [2, 5]).1 _ _ rfl,
   (client_ops_deterministic 7 ClipboardMode.Clipboard [104]
      ⟨"text", "plain", []⟩ [2, 5]).2.2.2.2.2.2.2.2.2 _ _ rfl⟩
